import Mathlib

/-!
# Verification of the navigation / drawer / tab core of `personal-suite-vue-app`

Shallow embedding of the route-metadata model, the drawer projection
(`src/composables/useDrawerRoutes.ts`), the drawer renderer
(`DrawerItem.vue` / `DrawerSubItem.vue`), the tab container and the
YouTube view lifecycle, the channel-deletion handler (`ChannelsTab.vue`),
and the `normalizeEmptyFields` utility.

JavaScript semantics encoded explicitly where they matter:
* `a.meta?.order ?? 0` is `Option.getD` through an optional chain;
* `String(undefined)` is the string `"undefined"`;
* `x || y` on strings takes `y` exactly when `x` is the empty string
  (the only falsy string);
* `Array.prototype.sort` with the comparator
  `(a, b) => (a.meta?.order ?? 0) - (b.meta?.order ?? 0)` is, per the
  ECMAScript specification, a *stable* in-place sort consistent with the
  comparator; a stable sort for a total preorder is uniquely determined
  by the input list, so `List.insertionSort` (which is stable) is a
  faithful embedding of its result.
-/

namespace PersonalSuite

/-- Route metadata bag: the `RouteMeta` augmentation declared by the app
(`i18nKey?`, `icon?`, `showInDrawer?`, `order?`, `breadcrumb?`);
every field is optional. -/
structure RouteMeta where
  i18nKey : Option String := none
  icon : Option String := none
  showInDrawer : Option Bool := none
  order : Option Int := none
  breadcrumb : Option String := none
deriving DecidableEq, Repr

/-- A vue-router `RouteRecordRaw` restricted to the fields the navigation
core reads: `path`, optional `name`, optional `meta`, and `children`
(a missing `children` array is collapsed to `[]`, which the code treats
identically via `route.children?.length`). Component references are not
data and are omitted. -/
inductive Route : Type where
  | mk (path : String) (name : Option String) (meta : Option RouteMeta)
      (children : List Route) : Route

/-- `route.path`. -/
def Route.path : Route → String
  | .mk p _ _ _ => p

/-- `route.name` (optional in vue-router). -/
def Route.name : Route → Option String
  | .mk _ n _ _ => n

/-- `route.meta`. -/
def Route.meta : Route → Option RouteMeta
  | .mk _ _ m _ => m

/-- `route.children` (absent array collapsed to `[]`). -/
def Route.children : Route → List Route
  | .mk _ _ _ c => c

/-- `route.meta?.showInDrawer` — optional chaining. -/
def Route.metaShowInDrawer (r : Route) : Option Bool :=
  r.meta.bind RouteMeta.showInDrawer

/-- `route.meta?.order` — optional chaining. -/
def Route.metaOrder (r : Route) : Option Int :=
  r.meta.bind RouteMeta.order

/-- `route.meta?.i18nKey` — optional chaining. -/
def Route.metaI18nKey (r : Route) : Option String :=
  r.meta.bind RouteMeta.i18nKey

/-- `route.meta?.icon` — optional chaining. -/
def Route.metaIcon (r : Route) : Option String :=
  r.meta.bind RouteMeta.icon

/-- The comparator key of `useDrawerRoutes`: `r.meta?.order ?? 0`. -/
def orderKey (r : Route) : Int :=
  r.metaOrder.getD 0

/-- The filter predicate of `useDrawerRoutes`:
`r.meta?.showInDrawer !== false && r.name !== 'settings'`.
(An absent `meta` or `showInDrawer` yields `undefined`, which is
`!== false`; an absent `name` is `undefined`, which is `!== 'settings'`.) -/
def keepInDrawer (r : Route) : Bool :=
  decide (r.metaShowInDrawer ≠ some false) && decide (r.name ≠ some "settings")

/-- The total preorder induced by the sort comparator
`(a, b) => (a.meta?.order ?? 0) - (b.meta?.order ?? 0)`. -/
def routeLE (a b : Route) : Prop :=
  orderKey a ≤ orderKey b

instance : DecidableRel routeLE :=
  fun a b => inferInstanceAs (Decidable (orderKey a ≤ orderKey b))

instance : IsTotal Route routeLE :=
  ⟨fun a b => Int.le_total (orderKey a) (orderKey b)⟩

instance : IsTrans Route routeLE :=
  ⟨fun _ _ _ h₁ h₂ => le_trans h₁ h₂⟩

/-- The `drawerRoutes` computed value of `useDrawerRoutes`
(src/composables/useDrawerRoutes.ts, lines 12–19):

```
allRoutes
  .filter(r => r.meta?.showInDrawer !== false && r.name !== 'settings')
  .sort((a, b) => (a.meta?.order ?? 0) - (b.meta?.order ?? 0))
```

`filter` allocates a fresh array; `sort` stably sorts that fresh array
in place by the `order` key.  The stable sort is embedded as
`List.insertionSort` (see the file header). -/
def drawerRoutes (allRoutes : List Route) : List Route :=
  List.insertionSort routeLE (allRoutes.filter keepInDrawer)

end PersonalSuite

namespace PersonalSuite

/-! ## C1: the drawer projection's filter -/

/-- **C1.** A route is in the drawer projection of a route collection iff
it is in the collection, its `meta.showInDrawer` is not explicitly
`false`, and its `name` is not the reserved identifier `"settings"`;
every other route appears in the output. -/
theorem useDrawerRoutes_filter_spec (rs : List Route) (r : Route) :
    r ∈ drawerRoutes rs ↔
      r ∈ rs ∧ r.metaShowInDrawer ≠ some false ∧ r.name ≠ some "settings" := by
  unfold drawerRoutes
  rw [List.mem_insertionSort, List.mem_filter]
  unfold keepInDrawer
  constructor
  · rintro ⟨hmem, hb⟩
    simp only [Bool.and_eq_true, decide_eq_true_eq] at hb
    exact ⟨hmem, hb.1, hb.2⟩
  · rintro ⟨hmem, h₁, h₂⟩
    refine ⟨hmem, ?_⟩
    simp only [Bool.and_eq_true, decide_eq_true_eq]
    exact ⟨h₁, h₂⟩

/-! ## C4: the concrete three-route scenario -/

/-- Scenario route `{name:"home", path:"/", order:1}`. -/
def c4Home : Route :=
  .mk "/" (some "home") (some { order := some 1 }) []

/-- Scenario route `{name:"settings", path:"/settings", order:99}`. -/
def c4Settings : Route :=
  .mk "/settings" (some "settings") (some { order := some 99 }) []

/-- Scenario child route `{name:"videos", path:"videos"}`. -/
def c4Videos : Route :=
  .mk "videos" (some "videos") none []

/-- Scenario route `{name:"media", path:"/media", order:0, children:[videos]}`. -/
def c4Media : Route :=
  .mk "/media" (some "media") (some { order := some 0 }) [c4Videos]

/-- The scenario's input route list. -/
def c4Input : List Route := [c4Home, c4Settings, c4Media]

/-- **C4.** On the scenario list the drawer projection returns exactly
`[media, home]` in that order, `media` still carrying the child
`videos`, and `settings` excluded by the reserved-name rule. -/
theorem useDrawerRoutes_scenario :
    drawerRoutes c4Input = [c4Media, c4Home] ∧ c4Media.children = [c4Videos] :=
  ⟨rfl, rfl⟩

/-! ## C3: stability and ordering of the drawer sort -/

/-- Elements of a single `orderKey` class are pairwise `routeLE`. -/
theorem pairwise_routeLE_of_filter_orderKey (l : List Route) (k : Int) :
    (l.filter (fun r => decide (orderKey r = k))).Pairwise routeLE := by
  apply List.pairwise_of_forall_mem_list
  intro a ha b hb
  have ha' := (List.mem_filter.mp ha).2
  have hb' := (List.mem_filter.mp hb).2
  simp only [decide_eq_true_eq] at ha' hb'
  unfold routeLE
  rw [ha', hb']

/-- The stable sort leaves each `orderKey` class in its original relative
order: filtering the sorted list down to one key value gives exactly the
filtered input in input order. -/
theorem insertionSort_filter_orderKey (l : List Route) (k : Int) :
    (List.insertionSort routeLE l).filter (fun r => decide (orderKey r = k)) =
      l.filter (fun r => decide (orderKey r = k)) := by
  set p : Route → Bool := fun r => decide (orderKey r = k) with hp
  have hsub : List.Sublist (l.filter p) (List.insertionSort routeLE l) :=
    List.sublist_insertionSort (pairwise_routeLE_of_filter_orderKey l k)
      (List.filter_sublist l)
  have hsub2 : List.Sublist (l.filter p) ((List.insertionSort routeLE l).filter p) := by
    have h := List.Sublist.filter p hsub
    rwa [List.filter_filter, List.filter_congr (fun a _ => Bool.and_self (p a))] at h
  have hlen : (l.filter p).length = ((List.insertionSort routeLE l).filter p).length :=
    (((List.perm_insertionSort routeLE l).filter p).length_eq).symm
  exact (List.Sublist.eq_of_length hsub2 hlen).symm

/-- **C3.** The drawer projection's sort is stable and ascending: for any
order value `k`, the routes of the output whose order key equals `k` are
exactly the kept routes of the input with that key, in their original
relative declaration order; and any two output positions `i < j` carry
non-decreasing order keys (so a route with a strictly smaller order value
always appears before one with a larger value). -/
theorem drawerRoutes_sort_spec (rs : List Route) (k : Int)
    (i j : Fin (drawerRoutes rs).length) (hij : i < j) :
    (drawerRoutes rs).filter (fun r => decide (orderKey r = k)) =
      (rs.filter keepInDrawer).filter (fun r => decide (orderKey r = k))
    ∧ orderKey ((drawerRoutes rs).get i) ≤ orderKey ((drawerRoutes rs).get j) := by
  constructor
  · exact insertionSort_filter_orderKey (rs.filter keepInDrawer) k
  · exact (List.sorted_insertionSort routeLE (rs.filter keepInDrawer)).rel_get_of_lt hij

/-- Witness for C3 on the concrete scenario list: positions 0 and 1 of
`drawerRoutes c4Input`, key class `0`. -/
theorem drawerRoutes_sort_spec_witness :
    (drawerRoutes c4Input).filter (fun r => decide (orderKey r = 0)) =
      (c4Input.filter keepInDrawer).filter (fun r => decide (orderKey r = 0))
    ∧ orderKey ((drawerRoutes c4Input).get ⟨0, by decide⟩) ≤
        orderKey ((drawerRoutes c4Input).get ⟨1, by decide⟩) :=
  drawerRoutes_sort_spec c4Input 0 ⟨0, by decide⟩ ⟨1, by decide⟩ (by decide)

/-! ## C9: the projection does not mutate the source route array -/

/-- The two JavaScript arrays alive during one evaluation of the
`drawerRoutes` computed value: the module-level `allRoutes` array and the
intermediate/result array being built. -/
structure DrawerEval where
  allRoutes : List Route
  result : List Route

/-- `allRoutes.filter(...)`: `Array.prototype.filter` allocates a fresh
array and leaves its receiver untouched. -/
def filterStep (s : DrawerEval) : DrawerEval :=
  { s with result := s.allRoutes.filter keepInDrawer }

/-- `.sort(...)`: `Array.prototype.sort` sorts *its receiver* in place —
here the fresh array produced by `filter`, not `allRoutes`. -/
def sortStep (s : DrawerEval) : DrawerEval :=
  { s with result := List.insertionSort routeLE s.result }

/-- One evaluation of the `drawerRoutes` computed value against a given
state of the global `routes` array. -/
def useDrawerRoutesRun (rs : List Route) : DrawerEval :=
  sortStep (filterStep { allRoutes := rs, result := [] })

/-- The application's global `routes` constant
(src/constants/routes.ts merged with the media-tracker module routes). -/
def appRoutes : List Route :=
  [ .mk "/" (some "home")
      (some { i18nKey := some "common.start", icon := some "mdi-home" }) [],
    .mk "/settings" (some "settings")
      (some { i18nKey := some "common.settings", icon := some "mdi-cog" }) [],
    .mk "/media-tracker" (some "media-tracker")
      (some { i18nKey := some "mediaTracker.mediaTracker",
              icon := some "mdi-play-circle" })
      [ .mk "media" (some "media-tracker-media")
          (some { i18nKey := some "mediaTracker.media",
                  icon := some "mdi-movie-open" }) [],
        .mk "youtube" (some "media-tracker-youtube")
          (some { i18nKey := some "mediaTracker.youTube.youTube",
                  icon := some "mdi-youtube" }) [] ] ]

/-- **C9.** Evaluating the drawer projection leaves the source route
array exactly as it was (the in-place sort hits only the fresh array the
filter allocated), while the result is the projected list; in particular
the application's global `routes` constant is unchanged. -/
theorem useDrawerRoutes_frame (rs : List Route) :
    (useDrawerRoutesRun rs).allRoutes = rs
    ∧ (useDrawerRoutesRun rs).result = drawerRoutes rs
    ∧ (useDrawerRoutesRun appRoutes).allRoutes = appRoutes :=
  ⟨rfl, rfl, rfl⟩

/-! ## Drawer renderer: `DrawerItem.vue` / `DrawerSubItem.vue` -/

/-- JavaScript `String(route.name)`: the name itself when present, the
string `"undefined"` when `route.name` is `undefined`. -/
def jsStringOfName : Option String → String
  | some s => s
  | none => "undefined"

/-- The argument handed to the translation function by both drawer
components: `route.meta?.i18nKey ?? String(route.name) ?? ''`.
`String(route.name)` is always a defined string, so the left operand of
the final `?? ''` is never nullish and the `''` branch is dead code. -/
def titleKeyExpr (r : Route) : String :=
  (some (r.metaI18nKey.getD (jsStringOfName r.name))).getD ""

/-- The rendered title:
`t(route.meta?.i18nKey ?? String(route.name) ?? '')` for the active
translation function `t`. -/
def renderTitle (t : String → String) (r : Route) : String :=
  t (titleKeyExpr r)

/-- A rendered `DrawerSubItem` (`v-list-item` inside a `v-list-group`). -/
structure DrawerSubRendered where
  title : String
  navTo : String
  icon : Option String
deriving DecidableEq, Repr

/-- A rendered `DrawerItem`: a `v-list-group` with sub-items when
`route.children?.length` is truthy, a plain `v-list-item` otherwise. -/
inductive DrawerItemRendered : Type where
  | group (title : String) (icon : Option String)
      (children : List DrawerSubRendered) : DrawerItemRendered
  | leaf (title : String) (navTo : String) (icon : Option String) : DrawerItemRendered
deriving DecidableEq, Repr

/-- The title shown by a rendered drawer item. -/
def DrawerItemRendered.title : DrawerItemRendered → String
  | .group s _ _ => s
  | .leaf s _ _ => s

/-- The navigation targets of a rendered drawer item's sub-items
(empty for a leaf). -/
def DrawerItemRendered.subTos : DrawerItemRendered → List String
  | .group _ _ cs => cs.map DrawerSubRendered.navTo
  | .leaf _ _ _ => []

/-- `DrawerSubItem.vue`: `:to="parentPath ? `$\x7bparentPath\x7d/$\x7broute.path\x7d` : route.path"`
with the title and icon resolved as in `DrawerItem.vue`.  A missing
`parentPath` prop is `undefined`, which is falsy like `""`; both are
modelled as the empty string. -/
def drawerSubItem (t : String → String) (parentPath : String) (r : Route) :
    DrawerSubRendered :=
  { title := renderTitle t r
    navTo := if parentPath ≠ "" then parentPath ++ "/" ++ r.path else r.path
    icon := r.metaIcon }

/-- `DrawerItem.vue`: a `v-list-group` over `route.children` (each child a
`DrawerSubItem` with `parent-path = route.path`) when
`route.children?.length` is truthy, else a single `v-list-item`
navigating to `route.path`. -/
def drawerItem (t : String → String) (r : Route) : DrawerItemRendered :=
  if r.children.length ≠ 0 then
    .group (renderTitle t r) r.metaIcon (r.children.map (drawerSubItem t r.path))
  else
    .leaf (renderTitle t r) r.path r.metaIcon

/-! ## C2: label resolution -/

/-- Counterexample to **C2** as stated.  The claim requires an *empty*
label when neither `meta.i18nKey` nor `name` is present, and the *raw*
name when only the key is missing.  The code instead passes
`String(route.name)` through the translation function: with the identity
translation a name-less route renders the label `"undefined"`, not `""`,
and with a translation function mapping `"home"` to `"X"` a key-less
route named `"home"` renders `"X"`, not `"home"`. -/
theorem drawerItem_label_cex :
    (drawerItem (fun s => s) (.mk "/x" none none [])).title = "undefined"
    ∧ ("undefined" : String) ≠ ""
    ∧ (drawerItem (fun _ => "X") (.mk "/" (some "home") none [])).title = "X"
    ∧ ("X" : String) ≠ "home" :=
  ⟨rfl, by decide, rfl, by decide⟩

/-- **C2 (amended).** Label resolution as the code performs it: with
translation function `t`, a route with `meta.i18nKey = k` renders
`t k`; a route without a key renders `t name` — the raw name is passed
*through* the translation function, not displayed directly; a route with
neither key nor name renders `t "undefined"` (JavaScript
`String(undefined)`); the `?? ''` fallback is unreachable, so no empty
label is produced and no crash occurs (the function is total). -/
theorem drawerItem_label_spec (t : String → String) (r : Route) :
    (∀ k, r.metaI18nKey = some k → renderTitle t r = t k)
    ∧ (r.metaI18nKey = none → ∀ n, r.name = some n → renderTitle t r = t n)
    ∧ (r.metaI18nKey = none → r.name = none → renderTitle t r = t "undefined") := by
  refine ⟨fun k hk => ?_, fun hk n hn => ?_, fun hk hn => ?_⟩
  · simp [renderTitle, titleKeyExpr, hk]
  · simp [renderTitle, titleKeyExpr, hk, hn, jsStringOfName]
  · simp [renderTitle, titleKeyExpr, hk, hn, jsStringOfName]

/-- Witness for the amended C2: each branch discharged on a concrete
route under the identity translation function. -/
theorem drawerItem_label_spec_witness :
    renderTitle (fun s => s) (.mk "/" (some "home") (some { i18nKey := some "common.start" }) []) =
      "common.start"
    ∧ renderTitle (fun s => s) (.mk "/" (some "home") none []) = "home"
    ∧ renderTitle (fun s => s) (.mk "/x" none none []) = "undefined" :=
  ⟨(drawerItem_label_spec (fun s => s)
      (.mk "/" (some "home") (some { i18nKey := some "common.start" }) [])).1
        "common.start" rfl,
   (drawerItem_label_spec (fun s => s) (.mk "/" (some "home") none [])).2.1
      rfl "home" rfl,
   (drawerItem_label_spec (fun s => s) (.mk "/x" none none [])).2.2 rfl rfl⟩

/-! ## C7: group versus leaf rendering -/

/-- Counterexample to **C7** as stated.  The claim requires every child
of a group to navigate to the concatenation `parentPath ++ "/" ++ childPath`
unconditionally.  The code guards the template literal with the
truthiness of `parentPath`: for a parent route whose `path` is the empty
string, the child navigates to its bare own path (`"videos"`), not to
the concatenation (`"/videos"`). -/
theorem drawerItem_render_cex :
    (drawerItem (fun s => s)
        (.mk "" (some "root") none [.mk "videos" (some "videos") none []])).subTos =
      ["videos"]
    ∧ ("videos" : String) ≠ "" ++ "/" ++ "videos" :=
  ⟨rfl, by decide⟩

/-- **C7 (amended).** A route with at least one child renders as a group
whose sub-items are its children in order, each navigating to
`parentPath ++ "/" ++ childPath` when the parent's path is non-empty and
to the bare child path when the parent's path is empty; a route with no
children renders as a single leaf navigating to its own path. -/
theorem drawerItem_render_spec (t : String → String) (r : Route) :
    (r.children = [] →
      drawerItem t r = .leaf (renderTitle t r) r.path r.metaIcon)
    ∧ (r.children ≠ [] →
      drawerItem t r =
        .group (renderTitle t r) r.metaIcon (r.children.map (drawerSubItem t r.path)))
    ∧ (r.path ≠ "" → ∀ c, (drawerSubItem t r.path c).navTo = r.path ++ "/" ++ c.path)
    ∧ (r.path = "" → ∀ c, (drawerSubItem t r.path c).navTo = c.path) := by
  refine ⟨fun h => ?_, fun h => ?_, fun h c => ?_, fun h c => ?_⟩
  · simp [drawerItem, h]
  · have hlen : r.children.length ≠ 0 := by
      simpa [List.length_eq_zero] using h
    simp [drawerItem, hlen]
  · simp [drawerSubItem, h]
  · simp [drawerSubItem, h]

/-- Witness for the amended C7: the media-tracker parent route (group
with two children and a non-empty path) and the home route (leaf). -/
theorem drawerItem_render_spec_witness :
    drawerItem (fun s => s) c4Home = .leaf "home" "/" none
    ∧ drawerItem (fun s => s) c4Media =
      .group "media" none [⟨"videos", "/media/videos", none⟩]
    ∧ (drawerSubItem (fun s => s) c4Media.path c4Videos).navTo = "/media" ++ "/" ++ "videos" :=
  ⟨(drawerItem_render_spec (fun s => s) c4Home).1 rfl,
   (drawerItem_render_spec (fun s => s) c4Media).2.1 (List.cons_ne_nil c4Videos []),
   (drawerItem_render_spec (fun s => s) c4Media).2.2.1 (by decide) c4Videos⟩

/-! ## Tab container and YouTube view (C8) -/

/-- A `Tab` descriptor (src/types/tab.ts): `tabId`, `label` (an i18n
key), optional `icon`.  The attached component reference is not data and
is omitted. -/
structure Tab where
  tabId : String
  label : String
  icon : Option String := none
deriving DecidableEq, Repr

/-- JavaScript `x || y` on strings: the only falsy string is `""`. -/
def jsOrString (a b : String) : String :=
  if a = "" then b else a

/-- `TabContainer`'s initial active tab:
`ref(props.modelValue || props.tabs[0]?.tabId || '')`.
An absent `modelValue` prop and an absent first tab are `undefined`,
which is falsy exactly like the empty string, so both are collapsed to
`""` before the `||` chain. -/
def tabContainerInitialActiveTab (modelValue : Option String) (tabs : List Tab) :
    String :=
  jsOrString (modelValue.getD "")
    (jsOrString ((tabs.head?.map Tab.tabId).getD "") "")

/-- The YouTube tab list
(src/modules/media-tracker/components/pages/youtube/tabs.ts). -/
def YouTubeTabs : List Tab :=
  [ { tabId := "channels", label := "mediaTracker.youTube.channels.channels" },
    { tabId := "videos", label := "mediaTracker.youTube.videos.videos" } ]

/-- `YouTubeView.vue` setup, line 47:
`if (!activeTab.value) activeTab.value = tabs[0]!.tabId` — the value of
the shared active-tab cell after the view initializes, as a function of
its prior value (`!s` is true for a string exactly when it is empty). -/
def youTubeInitialActiveTab (shared : String) : String :=
  if shared = "" then (YouTubeTabs.head?.map Tab.tabId).getD "" else shared

/-- **C8.** For every non-empty tab list, `TabContainer` with no
supplied `modelValue` starts on the first descriptor's id, and with a
supplied (non-empty) id it starts on that id; the YouTube view, finding
the shared active-tab value empty, sets it to the first YouTube tab id
(`"channels"`), and leaves any non-empty value alone. -/
theorem tabContainer_initial_spec :
    (∀ (tb : Tab) (tabs : List Tab),
      tabContainerInitialActiveTab none (tb :: tabs) = tb.tabId)
    ∧ (∀ (v : String) (tabs : List Tab), v ≠ "" →
      tabContainerInitialActiveTab (some v) tabs = v)
    ∧ youTubeInitialActiveTab "" = "channels"
    ∧ (∀ v : String, v ≠ "" → youTubeInitialActiveTab v = v) := by
  refine ⟨fun tb tabs => ?_, fun v tabs hv => ?_, rfl, fun v hv => ?_⟩
  · by_cases h : tb.tabId = "" <;>
      simp [tabContainerInitialActiveTab, jsOrString, h]
  · simp [tabContainerInitialActiveTab, jsOrString, hv]
  · simp [youTubeInitialActiveTab, hv]

/-- Witness for C8: the YouTube tab list and a concrete supplied id. -/
theorem tabContainer_initial_spec_witness :
    tabContainerInitialActiveTab none YouTubeTabs = "channels"
    ∧ tabContainerInitialActiveTab (some "videos") YouTubeTabs = "videos"
    ∧ youTubeInitialActiveTab "" = "channels"
    ∧ youTubeInitialActiveTab "videos" = "videos" :=
  ⟨tabContainer_initial_spec.1
      { tabId := "channels", label := "mediaTracker.youTube.channels.channels" }
      [{ tabId := "videos", label := "mediaTracker.youTube.videos.videos" }],
   tabContainer_initial_spec.2.1 "videos" YouTubeTabs (by decide),
   tabContainer_initial_spec.2.2.1,
   tabContainer_initial_spec.2.2.2 "videos" (by decide)⟩

/-! ## Sticky slot and shared active-tab state (C6) -/

/-- An occupant of the sticky slot: a component reference with its props
and the full-bleed flag.  The props are summarized by the component
name; their contents play no role in the lifecycle claims. -/
structure StickyEntry where
  component : String
  fullBleed : Bool
deriving DecidableEq, Repr

/-- The process-wide navigation-shell state: the sticky slot (at most
one occupant) and the shared active-tab string cell. -/
structure NavShellState where
  stickySlot : Option StickyEntry
  activeTab : String
deriving DecidableEq, Repr

/-- Modelled from the spec: `useStickyBarStore().add` — the sticky-bar
store is not among the sources (only its caller `YouTubeView.vue` is).
Per spec §4.4, `claim(componentRef, props, fullBleed)` installs a
renderable into the single global slot, replacing any previous occupant
unconditionally. -/
def stickyAdd (e : StickyEntry) (g : NavShellState) : NavShellState :=
  { g with stickySlot := some e }

/-- Modelled from the spec: `useStickyBarStore().clear` — per spec §4.4,
`clear()` empties the slot. -/
def stickyClear (g : NavShellState) : NavShellState :=
  { g with stickySlot := none }

/-- Modelled from the spec: `useActiveTab().setActiveTab` — per spec §3,
`ActiveTabState` is a process-wide single string value; writing it is
last-writer-wins assignment. -/
def setActiveTab (v : String) (g : NavShellState) : NavShellState :=
  { g with activeTab := v }

/-- `YouTubeView.vue` `onMounted` hook: claims the sticky slot with a
`TabContainer` (full-bleed). -/
def youTubeOnMounted (g : NavShellState) : NavShellState :=
  stickyAdd { component := "TabContainer", fullBleed := true } g

/-- `YouTubeView.vue` `onUnmounted` hook (lines 57–60):
`sticky.clear(); setActiveTab('')`. -/
def youTubeOnUnmounted (g : NavShellState) : NavShellState :=
  setActiveTab "" (stickyClear g)

/-- **C6.** Unmounting the YouTube view after it claimed the sticky slot
and set the shared active-tab state leaves the slot empty and the
active-tab cell equal to the empty string, whatever the starting state
and whatever tab value had been written. -/
theorem youTubeView_unmount_spec (g : NavShellState) (v : String) :
    (youTubeOnUnmounted (setActiveTab v (youTubeOnMounted g))).stickySlot = none
    ∧ (youTubeOnUnmounted (setActiveTab v (youTubeOnMounted g))).activeTab = "" :=
  ⟨rfl, rfl⟩

/-! ## Channel deletion (C5) -/

/-- A YouTube channel entity, with the fields `ChannelsTab.vue` uses. -/
structure YTChannel where
  id : String
  name : String
  description : String
  url : String
  createdAt : String
deriving DecidableEq, Repr

/-- `ApiSuccessStatusCodes.DELETED` (HTTP 204) from the app's constants. -/
def ApiSuccessStatusCodes.DELETED : Nat := 204

/-- The reactive state of `ChannelsTab.vue` touched by the deletion
flow: the store's bound channel list, the snackbar, the confirmation
dialog, the pending-deletion selection, and the console as a log. -/
structure ChannelsTabState where
  channels : List YTChannel
  showSnackbar : Bool
  snackbarMessage : String
  showConfirm : Bool
  channelPendingDeletion : Option YTChannel
  confirmDialogMessage : String
  consoleLog : List String
deriving DecidableEq, Repr

/-- An `ApiResponse.status` (`number | null`) as `console.log` prints it. -/
def statusText : Option Nat → String
  | some n => toString n
  | none => "null"

/-- Modelled from the spec: `useYTChannelStore().remove` — the channel
store is not among the sources (only its caller `ChannelsTab.vue` is).
Per spec §6 the store exposes `remove(id) -> {statusCode}` and never
throws (failures are represented as data, status code plus null
payload); per the §8 scenario a 204 answer removes the entity from the
bound list, while any other status leaves the list unchanged.
`backendStatus` is the status code the backend answers (`none` models a
request that got no response). -/
def ytChannelStoreRemove (backendStatus : Option Nat) (id : String)
    (channels : List YTChannel) : List YTChannel × Option Nat :=
  (if backendStatus = some ApiSuccessStatusCodes.DELETED then
      channels.filter (fun c => decide (c.id ≠ id))
    else channels,
   backendStatus)

/-- `deleteChannel` from `ChannelsTab.vue` (lines 262–280): bail out if
nothing is pending; await the store's `remove`; on status 204 set the
snackbar message to the translated delete-feedback key and show the
snackbar, otherwise log a console diagnostic; in all cases close the
confirmation dialog and clear the pending selection and message.  The
function is total: no exception escapes. -/
def deleteChannel (t : String → String) (backendStatus : Option Nat)
    (s : ChannelsTabState) : ChannelsTabState :=
  match s.channelPendingDeletion with
  | none => s
  | some c =>
    let rs := ytChannelStoreRemove backendStatus c.id s.channels
    let s1 : ChannelsTabState := { s with channels := rs.1 }
    let s2 : ChannelsTabState :=
      if rs.2 = some ApiSuccessStatusCodes.DELETED then
        { s1 with
            snackbarMessage := t "mediaTracker.youTube.channels.feedback.delete",
            showSnackbar := true }
      else
        { s1 with
            consoleLog :=
              s1.consoleLog ++ ["Error deleting channel, code: " ++ statusText rs.2] }
    { s2 with
        showConfirm := false,
        channelPendingDeletion := none,
        confirmDialogMessage := "" }

/-- **C5.** With a channel pending deletion: a 204 answer removes the
entity from the bound list, shows the removal snackbar and closes the
confirmation dialog; any other answer (e.g. 403) closes the dialog too
but leaves the snackbar state and the channel list untouched, emitting
only a console diagnostic; the handler is a total function, so no
exception escapes in either case. -/
theorem deleteChannel_spec (t : String → String) (backendStatus : Option Nat)
    (s : ChannelsTabState) (c : YTChannel)
    (hc : s.channelPendingDeletion = some c) :
    (deleteChannel t backendStatus s).showConfirm = false
    ∧ (deleteChannel t backendStatus s).channelPendingDeletion = none
    ∧ (backendStatus = some 204 →
        (deleteChannel t backendStatus s).channels =
          s.channels.filter (fun x => decide (x.id ≠ c.id))
        ∧ (deleteChannel t backendStatus s).showSnackbar = true
        ∧ (deleteChannel t backendStatus s).consoleLog = s.consoleLog)
    ∧ (backendStatus ≠ some 204 →
        (deleteChannel t backendStatus s).channels = s.channels
        ∧ (deleteChannel t backendStatus s).showSnackbar = s.showSnackbar
        ∧ (deleteChannel t backendStatus s).consoleLog =
            s.consoleLog ++
              ["Error deleting channel, code: " ++ statusText backendStatus]) := by
  refine ⟨?_, ?_, fun h => ?_, fun h => ?_⟩
  · simp [deleteChannel, ytChannelStoreRemove, ApiSuccessStatusCodes.DELETED, hc]
  · simp [deleteChannel, ytChannelStoreRemove, ApiSuccessStatusCodes.DELETED, hc]
  · simp [deleteChannel, ytChannelStoreRemove, ApiSuccessStatusCodes.DELETED, hc, h]
  · simp [deleteChannel, ytChannelStoreRemove, ApiSuccessStatusCodes.DELETED, hc, h]

/-- Witness for C5: one pending channel, exercised at status 204 and at
status 403. -/
theorem deleteChannel_spec_witness :
    ((deleteChannel (fun s => s) (some 204)
        { channels := [⟨"c1", "Chan", "", "", ""⟩],
          showSnackbar := false, snackbarMessage := "",
          showConfirm := true,
          channelPendingDeletion := some ⟨"c1", "Chan", "", "", ""⟩,
          confirmDialogMessage := "m", consoleLog := [] }).showConfirm = false)
    ∧ ((deleteChannel (fun s => s) (some 204)
        { channels := [⟨"c1", "Chan", "", "", ""⟩],
          showSnackbar := false, snackbarMessage := "",
          showConfirm := true,
          channelPendingDeletion := some ⟨"c1", "Chan", "", "", ""⟩,
          confirmDialogMessage := "m", consoleLog := [] }).channels =
        List.filter (fun x => decide (x.id ≠ "c1")) [⟨"c1", "Chan", "", "", ""⟩])
    ∧ ((deleteChannel (fun s => s) (some 403)
        { channels := [⟨"c1", "Chan", "", "", ""⟩],
          showSnackbar := false, snackbarMessage := "",
          showConfirm := true,
          channelPendingDeletion := some ⟨"c1", "Chan", "", "", ""⟩,
          confirmDialogMessage := "m", consoleLog := [] }).showSnackbar = false) := by
  refine ⟨?_, ?_, ?_⟩
  · exact (deleteChannel_spec (fun s => s) (some 204) _ ⟨"c1", "Chan", "", "", ""⟩ rfl).1
  · exact ((deleteChannel_spec (fun s => s) (some 204) _ ⟨"c1", "Chan", "", "", ""⟩ rfl).2.2.1
      rfl).1
  · exact ((deleteChannel_spec (fun s => s) (some 403) _ ⟨"c1", "Chan", "", "", ""⟩ rfl).2.2.2
      (by decide)).2.1

/-! ## `normalizeEmptyFields` (C10) -/

/-- A JavaScript property value as `normalizeEmptyFields` may see it:
the utility only distinguishes the empty string from everything else. -/
inductive JVal : Type where
  | str (s : String) : JVal
  | num (n : Int) : JVal
  | boolean (b : Bool) : JVal
  | null : JVal
deriving DecidableEq, Repr

/-- A string-keyed JavaScript object: an ordered association list.  A
real object's keys are unique; that invariant is the `Nodup` hypothesis
of the theorem below. -/
abbrev JObj : Type := List (String × JVal)

/-- `result[key]`: the value at a key (`undefined`, i.e. `none`, when
the key is absent). -/
def objGet (o : JObj) (k : String) : Option JVal :=
  (o.find? (fun kv => decide (kv.1 = k))).map Prod.snd

/-- `result[key] = v` on an existing key: update in place, keys and
order untouched. -/
def objSet (o : JObj) (k : String) (v : JVal) : JObj :=
  o.map (fun kv => if kv.1 = k then (kv.1, v) else kv)

/-- One iteration of the `forEach` body:
`if (result[key] === "") result[key] = null`. -/
def normalizeStep (o : JObj) (k : String) : JObj :=
  if objGet o k = some (JVal.str "") then objSet o k JVal.null else o

/-- `normalizeEmptyFields` (src/router/index.ts companion utility,
lines 78–86): shallow-copy the object (`{...obj}`), then for each of the
copy's keys replace an empty-string value by `null`, and return the
copy.  The fold starts from the copy; the caller's object is never
written. -/
def normalizeEmptyFields (obj : JObj) : JObj :=
  (obj.map Prod.fst).foldl normalizeStep obj

/-- One call of `normalizeEmptyFields` together with the caller's object
after the call: the function mutates only the `{...obj}` copy, so the
second component is the argument itself. -/
def normalizeEmptyFieldsRun (obj : JObj) : JObj × JObj :=
  (normalizeEmptyFields obj, obj)

/-- On an object with unique keys, `result[k]` is the value stored with
`k`. -/
theorem objGet_eq_of_mem {o : JObj} {k : String} {v : JVal}
    (h : (o.map Prod.fst).Nodup) (hm : (k, v) ∈ o) : objGet o k = some v := by
  induction o with
  | nil => cases hm
  | cons kv tl ih =>
    rw [List.map_cons, List.nodup_cons] at h
    rcases List.mem_cons.mp hm with heq | htl
    · subst heq
      simp [objGet, List.find?]
    · by_cases hk : kv.1 = k
      · exact absurd (hk ▸ List.mem_map_of_mem Prod.fst htl) h.1
      · have := ih h.2 htl
        simpa [objGet, List.find?_cons, hk] using this

/-- `normalizeStep` acts pointwise on an object with unique keys. -/
theorem normalizeStep_eq_map {o : JObj} (k : String)
    (h : (o.map Prod.fst).Nodup) :
    normalizeStep o k =
      o.map (fun kv =>
        if kv.1 = k ∧ kv.2 = JVal.str "" then (kv.1, JVal.null) else kv) := by
  unfold normalizeStep
  by_cases hg : objGet o k = some (JVal.str "")
  · rw [if_pos hg]
    unfold objSet
    apply List.map_congr_left
    rintro ⟨k1, v1⟩ hkv
    by_cases hk : k1 = k
    · subst hk
      have hv : v1 = JVal.str "" := by
        have h2 := objGet_eq_of_mem h hkv
        rw [h2] at hg
        exact Option.some.inj hg
      simp [hv]
    · simp [hk]
  · rw [if_neg hg]
    conv_lhs => rw [← List.map_id o]
    apply List.map_congr_left
    rintro ⟨k1, v1⟩ hkv
    by_cases hk : k1 = k
    · subst hk
      have h2 : objGet o k1 = some v1 := objGet_eq_of_mem h hkv
      have hv : v1 ≠ JVal.str "" := fun he => hg (he ▸ h2)
      simp [hv]
    · simp [hk]

/-- The pointwise step respects keys. -/
theorem keys_normalizeStep_map (o : JObj) (k : String) :
    ((o.map (fun kv =>
        if kv.1 = k ∧ kv.2 = JVal.str "" then (kv.1, JVal.null) else kv)).map
      Prod.fst) = o.map Prod.fst := by
  rw [List.map_map]
  apply List.map_congr_left
  intro kv _
  by_cases hk : kv.1 = k ∧ kv.2 = JVal.str "" <;> simp [hk]

/-- Folding the `forEach` body over any key list acts pointwise, marking
exactly the empty-string values at visited keys. -/
theorem foldl_normalizeStep_eq_map (ks : List String) :
    ∀ (o : JObj), (o.map Prod.fst).Nodup →
      ks.foldl normalizeStep o =
        o.map (fun kv =>
          if kv.1 ∈ ks ∧ kv.2 = JVal.str "" then (kv.1, JVal.null) else kv) := by
  induction ks with
  | nil =>
    intro o _
    rw [List.foldl_nil]
    conv_lhs => rw [← List.map_id o]
    apply List.map_congr_left
    intro kv _
    simp
  | cons k ks ih =>
    intro o h
    rw [List.foldl_cons, normalizeStep_eq_map k h]
    rw [ih _ (by rw [keys_normalizeStep_map]; exact h)]
    rw [List.map_map]
    apply List.map_congr_left
    intro kv _
    by_cases h1 : kv.1 = k ∧ kv.2 = JVal.str ""
    · simp only [Function.comp_apply, if_pos h1]
      have hno : ¬((kv.1 ∈ ks) ∧ JVal.null = JVal.str "") := by simp
      rw [if_neg hno, h1.1, if_pos ⟨List.mem_cons_self k ks, h1.2⟩]
    · simp only [Function.comp_apply, if_neg h1]
      by_cases h2 : kv.1 ∈ ks ∧ kv.2 = JVal.str ""
      · rw [if_pos h2, if_pos ⟨List.mem_cons_of_mem k h2.1, h2.2⟩]
      · rw [if_neg h2, if_neg ?_]
        rintro ⟨hmem, hval⟩
        rcases List.mem_cons.mp hmem with hk | hk
        · exact h1 ⟨hk, hval⟩
        · exact h2 ⟨hk, hval⟩

/-- **C10.** For every string-keyed object, `normalizeEmptyFields`
returns a new object in which exactly the empty-string-valued properties
are replaced by `null` and every other property keeps its key and value,
while the caller's object is left unchanged. -/
theorem normalizeEmptyFields_spec (obj : JObj)
    (h : (obj.map Prod.fst).Nodup) :
    (normalizeEmptyFieldsRun obj).1 =
      obj.map (fun kv => (kv.1, if kv.2 = JVal.str "" then JVal.null else kv.2))
    ∧ (normalizeEmptyFieldsRun obj).2 = obj := by
  constructor
  · show normalizeEmptyFields obj = _
    unfold normalizeEmptyFields
    rw [foldl_normalizeStep_eq_map (obj.map Prod.fst) obj h]
    apply List.map_congr_left
    intro kv hkv
    by_cases hv : kv.2 = JVal.str ""
    · rw [if_pos ⟨List.mem_map_of_mem Prod.fst hkv, hv⟩, hv]
      simp
    · rw [if_neg (fun hc => hv hc.2), if_neg hv]
  · rfl

/-- Witness for C10 on the utility's own doc-comment example:
`{id: "", name: "John", description: ""}`. -/
theorem normalizeEmptyFields_spec_witness :
    (normalizeEmptyFieldsRun
        [("id", JVal.str ""), ("name", JVal.str "John"),
         ("description", JVal.str "")]).1 =
      [("id", JVal.null), ("name", JVal.str "John"), ("description", JVal.null)]
    ∧ (normalizeEmptyFieldsRun
        [("id", JVal.str ""), ("name", JVal.str "John"),
         ("description", JVal.str "")]).2 =
      [("id", JVal.str ""), ("name", JVal.str "John"),
       ("description", JVal.str "")] :=
  ⟨((normalizeEmptyFields_spec
      [("id", JVal.str ""), ("name", JVal.str "John"),
       ("description", JVal.str "")] (by decide)).1).trans (by decide),
   (normalizeEmptyFields_spec
      [("id", JVal.str ""), ("name", JVal.str "John"),
       ("description", JVal.str "")] (by decide)).2⟩

end PersonalSuite
